import Mathlib

/-!
Verification of the Reclaim/hawkeye request interceptor (`src/script.js`)
against its natural-language specification.

The development shallowly embeds the interceptor's data model and operations:
pure functions become Lean functions, the response body stream is modelled by
explicit state passing over a `Store` of consumed stream ids, and the
install/uninstall lifecycle is modelled as transitions over an explicit
environment of function references (reference identity is a `Nat` tag
allocated from a counter, mirroring JavaScript object identity).
-/

namespace Hawkeye

/-! ## JavaScript value and object primitives -/

/-- A JavaScript value as far as the interceptor's public API returns one:
the registration functions have no `return` statement, so they evaluate to
`undefined`. -/
inductive JsValue where
  | undefined
  | str (s : String)
  | bool (b : Bool)
deriving DecidableEq, Repr

/-- JavaScript `a || b` for an optional string: `null`/`undefined` and the
empty string are falsy. -/
def jsOrStr (a : Option String) (b : String) : String :=
  match a with
  | some s => if s = "" then b else s
  | none => b

/-- JavaScript object/Map keyed assignment `m[k] = v` (`Map.set`): an existing
key is updated in place (keeping its position), a new key is appended. -/
def objSet {α : Type} (m : List (String × α)) (k : String) (v : α) :
    List (String × α) :=
  if m.any (·.1 == k) then m.map (fun p => if p.1 == k then (k, v) else p)
  else m ++ [(k, v)]

/-- Character-list prefix test (kernel-reducible `startsWith` core). -/
def listBegins : List Char → List Char → Bool
  | [], _ => true
  | _ :: _, [] => false
  | p :: ps, c :: cs => p == c && listBegins ps cs

/-- `s.startsWith(pat)` of JavaScript. -/
def strBegins (s pat : String) : Bool :=
  listBegins pat.toList s.toList

/-- Substring occurrence over character lists. -/
def listHasSub (pat : List Char) : List Char → Bool
  | [] => pat.isEmpty
  | c :: cs => listBegins pat (c :: cs) || listHasSub pat cs

/-- `String.includes` of JavaScript (substring test). -/
def strContains (s pat : String) : Bool :=
  pat = "" || listHasSub pat.toList s.toList

/-- Uppercase / lowercase over the character list. -/
def strToUpper (s : String) : String :=
  String.mk (s.toList.map Char.toUpper)

def strToLower (s : String) : String :=
  String.mk (s.toList.map Char.toLower)

/-- Fuel-bounded split on a separator (the fuel `l.length + 1` always
suffices for a non-empty separator). -/
def splitOnAux (sep : List Char) : Nat → List Char → List Char →
    List (List Char)
  | 0, _, acc => [acc.reverse]
  | _ + 1, [], acc => [acc.reverse]
  | f + 1, c :: cs, acc =>
    if listBegins sep (c :: cs) then
      acc.reverse :: splitOnAux sep f (List.drop sep.length (c :: cs)) []
    else splitOnAux sep f cs (c :: acc)

/-- `s.split(sep)` of JavaScript (for a non-empty separator). -/
def jsSplitOn (s sep : String) : List String :=
  (splitOnAux sep.toList (s.toList.length + 1) s.toList []).map String.mk

/-- JavaScript `s.indexOf(c)` for a single character: position or `-1`. -/
def jsIndexOfChar (s : String) (c : Char) : Int :=
  match s.toList.findIdx? (· = c) with
  | some i => (i : Int)
  | none => -1

/-- JavaScript `s.substring(0, e)` with the negative index clamped to `0`. -/
def jsSubstringTo (s : String) (e : Int) : String :=
  String.mk (s.toList.take (max e 0).toNat)

/-- Lookup in a header/object list (exact key). -/
def headersGet (hs : List (String × String)) (name : String) : Option String :=
  (hs.find? (fun p => p.1 == name)).map (·.2)

/-! ## URL model

Model of the browser WHATWG `URL` primitive, sufficient for the inputs the
interceptor handles: a string parses as an absolute URL iff it carries an
http(s) scheme; `new URL(rel, base)` resolves a path-absolute reference
against the base's origin and any other reference against the base's
directory. -/

/-- Whether `new URL(s)` succeeds (absolute http(s) URL). -/
def isAbsoluteUrl (s : String) : Bool :=
  strBegins s "http://" || strBegins s "https://"

/-- Origin of an absolute URL: scheme plus host. -/
def urlOrigin (base : String) : String :=
  if strBegins base "https://" then
    "https://" ++ String.mk ((base.toList.drop 8).takeWhile (· ≠ '/'))
  else if strBegins base "http://" then
    "http://" ++ String.mk ((base.toList.drop 7).takeWhile (· ≠ '/'))
  else base

/-- The base URL up to and including its last `/` (its directory). -/
def urlBaseDir (base : String) : String :=
  String.mk ((base.toList.reverse.dropWhile (· ≠ '/')).reverse)

/-- `new URL(url, base).href`. -/
def urlResolve (url base : String) : String :=
  if isAbsoluteUrl url then url
  else if strBegins url "/" then urlOrigin base ++ url
  else urlBaseDir base ++ url

/-- Embedding of `canParseUrl` (src/script.js:143): `new URL(url)` inside
`try` — succeeds exactly on absolute URLs. -/
def canParseUrl (url : String) : Bool :=
  isAbsoluteUrl url

/-- Embedding of `resolveUrl` (src/script.js:157): absolute URLs pass through,
otherwise resolve against `location.href`. -/
def resolveUrl (locationHref : String) (url : String) : String :=
  if isAbsoluteUrl url then url
  else urlResolve url locationHref

/-! ## Canonical records and the response store -/

/-- The canonical request record handed to request middlewares by the
getter/direct fetch strategies and by the XHR strategy (`requestData` /
`requestInfo`).  The direct strategy's record omits the `body` key where the
getter strategy sets it to `null`; both are modelled as `none`.  The
`request` back-reference and `timestamp` fields are elided (no claim
mentions them). -/
structure RequestData where
  id : String
  url : String
  method : String
  headers : List (String × String)
  body : Option String
deriving DecidableEq, Repr

/-- Model of a browser `Request` object (url already resolved, method
normalized to uppercase, header names lowercased by the `Headers`
constructor). -/
structure Request where
  url : String
  method : String
  headers : List (String × String)
  body : Option String
deriving DecidableEq, Repr

/-- The `init` argument of a fetch-style call. -/
structure RequestInit where
  method : Option String
  headers : List (String × String)
  body : Option String
deriving DecidableEq, Repr

/-- `new Request(absoluteUrl, init)` (browser primitive model). -/
def mkRequest (absoluteUrl : String) (init : RequestInit) : Request :=
  { url := absoluteUrl
    method := strToUpper (jsOrStr init.method "GET")
    headers := init.headers.map (fun p => (strToLower p.1, p.2))
    body := init.body }

/-- Response content as produced by the network (before being materialized
as a `Response` object with an identity and a stream). -/
structure NetResponse where
  url : String
  status : Nat
  statusText : String
  headers : List (String × String)
  bodyText : String
  textFails : Bool
deriving DecidableEq, Repr

/-- The store tracks object identity allocation and which body streams have
been consumed (`bodyUsed`). -/
structure Store where
  nextId : Nat
  consumed : List Nat
deriving DecidableEq, Repr

/-- A store is well formed when every consumed stream id was allocated. -/
def Store.WF (st : Store) : Prop :=
  ∀ i ∈ st.consumed, i < st.nextId

instance (st : Store) : Decidable st.WF := by
  unfold Store.WF; infer_instance

def Store.alloc (st : Store) : Nat × Store :=
  (st.nextId, { st with nextId := st.nextId + 1 })

/-- Model of a browser `Response` object. -/
structure Response where
  objId : Nat
  streamId : Nat
  url : String
  status : Nat
  statusText : String
  headers : List (String × String)
  bodyText : String
  textFails : Bool
deriving DecidableEq, Repr

def Response.bodyUsed (r : Response) (st : Store) : Bool :=
  st.consumed.contains r.streamId

/-- `response.text()`: rejects when the stream is already consumed or the
payload cannot be decoded; in either case the read attempt locks the
stream. -/
def Response.textE (st : Store) (r : Response) : Except String String × Store :=
  if r.bodyUsed st then (.error "body stream already read", st)
  else
    let st' := { st with consumed := r.streamId :: st.consumed }
    if r.textFails then (.error "invalid", st') else (.ok r.bodyText, st')

/-- `response.clone()`: fresh object and fresh (unconsumed) stream with the
same content. -/
def Response.cloneM (st : Store) (r : Response) : Response × Store :=
  let (i, st') := st.alloc
  ({ r with objId := i, streamId := i }, st')

/-- Materialize network content as a fresh `Response` object. -/
def materialize (st : Store) (n : NetResponse) : Response × Store :=
  let (i, st') := st.alloc
  ({ objId := i, streamId := i, url := n.url, status := n.status,
     statusText := n.statusText, headers := n.headers,
     bodyText := n.bodyText, textFails := n.textFails }, st')

/-- The canonical response record (`parseResponse`'s result;
`originalResponse` is kept as the object id, `timestamp` is elided). -/
structure ResponseRecord where
  id : Option String
  url : String
  status : Nat
  statusText : String
  headers : List (String × String)
  body : String
  isMockedResponse : Bool
  originalResponseId : Nat
deriving DecidableEq, Repr

/-- Embedding of `parseResponse` (src/script.js:97-136).  The result type is
`Except` so that an uncaught rejection would surface as `.error`; the
source's outer and inner `try`/`catch` blocks appear as the matches on
`Response.textE`, so every branch produces `.ok`. -/
def parseResponse (st : Store) (r : Response) :
    Except String (ResponseRecord × Store) :=
  let contentType := jsOrStr (headersGet r.headers "content-type") ""
  let (responseBody, st') :=
    if r.bodyUsed st then
      ("[Response body already consumed]", st)
    else if strContains contentType "text/" ||
        strContains contentType "application/json" then
      -- inner try/catch (textError ↦ "[Invalid response format]")
      match Response.textE st r with
      | (.ok t, s) => (t, s)
      | (.error _, s) => ("[Invalid response format]", s)
    else
      -- binary branch; a text() failure here reaches the outer catch
      match Response.textE st r with
      | (.ok t, s) => (if t = "" then "[Binary Data]" else t, s)
      | (.error e, s) => (s!"[Error reading response: {e}]", s)
  .ok ({ id := none, url := r.url, status := r.status,
         statusText := r.statusText, headers := r.headers,
         body := responseBody, isMockedResponse := false,
         originalResponseId := r.objId }, st')

/-- A response middleware observes the parsed record; it may settle or
reject.  (The second `requestData` argument is elided: no claim depends on
it.) -/
def RespMw : Type := ResponseRecord → Except String Unit

/-- Embedding of `processResponseMiddlewares` (src/script.js:80-90): parse
the (cloned) response, then run each response middleware with a per-
middleware `try`/`catch`.  Returns the final store and the caught errors. -/
def processResponseMiddlewares (mws : List RespMw) (st : Store)
    (resp : Response) : Store × List (Option String) :=
  match parseResponse st resp with
  | .ok (rec, st') =>
      (st', mws.map (fun m => match m rec with
        | .ok _ => none
        | .error e => some e))
  | .error _ => (st, [])

/-! ## Request middleware pipeline -/

/-- Behaviour of one request middleware: it either throws synchronously when
invoked, or runs (mutating the shared record it was handed) and then
resolves or rejects. -/
inductive MwBehavior (α : Type) where
  | syncThrow (msg : String)
  | reject (mutate : α → α) (msg : String)
  | resolve (mutate : α → α)

def MwBehavior.isSyncThrow {α : Type} : MwBehavior α → Bool
  | .syncThrow _ => true
  | _ => false

/-- Result of the request-phase pipeline: the record after all settled
mutations, which middlewares were invoked at all, and the error swallowed
by the surrounding `try`/`catch` (if any). -/
structure PipelineResult (α : Type) where
  data : α
  invoked : List Bool
  caught : Option String

/-- Embedding of the request-middleware pattern shared by all call surfaces
(src/script.js:223-231, 471-479, 589-599, 738-747):
`try { await Promise.all(list.map(m => m(requestData))) } catch { log }`.
`Array.map` invokes the middlewares in order; a synchronous throw aborts the
map, so middlewares after it are never invoked; invoked middlewares' mutations
all apply to the shared record before dispatch; the first error is caught by
the surrounding handler. -/
def runReqMws {α : Type} : List (MwBehavior α) → α → PipelineResult α
  | [], d => ⟨d, [], none⟩
  | .syncThrow m :: rest, d =>
      ⟨d, true :: rest.map (fun _ => false), some m⟩
  | .reject f m :: rest, d =>
      let r := runReqMws rest (f d)
      ⟨r.data, true :: r.invoked, some m⟩
  | .resolve f :: rest, d =>
      let r := runReqMws rest (f d)
      ⟨r.data, true :: r.invoked, r.caught⟩

/-! ## Fetch interception strategy 3: getter/setter (accessor indirection)

Embedding of `createInterceptedFetch` (src/script.js:192-268). -/

/-- Observable outcome of one intercepted fetch-style call under the
getter/setter strategy. -/
structure GetterOutcome where
  /-- the record as first handed to request middlewares -/
  record0 : RequestData
  /-- the record after all invoked middlewares' mutations settled -/
  finalRecord : RequestData
  /-- which request middlewares were invoked -/
  invoked : List Bool
  /-- the error the surrounding try/catch swallowed, if any -/
  caught : Option String
  /-- the `Request` the real underlying fetch was dispatched with -/
  dispatched : Request
  /-- the `Response` returned to the original caller -/
  returned : Response
  /-- final store (stream consumption after the fire-and-forget
  response-phase processing) -/
  store : Store
deriving Repr

/-- Embedding of the wrapper returned by `createInterceptedFetch`
(src/script.js:193-267): resolve a relative string input, build a
`Request`, build `requestData`, run request middlewares (errors caught),
dispatch the real call with the `Request` object, return the response and —
only when response middlewares are registered — process a clone of it. -/
def interceptedFetchGetter (locationHref : String)
    (baseFetch : Request → NetResponse)
    (reqMws : List (MwBehavior RequestData)) (respMws : List RespMw)
    (requestId : String) (input : String) (init : RequestInit)
    (st : Store) : GetterOutcome :=
  let resolvedInput :=
    if ¬ canParseUrl input then urlResolve input locationHref else input
  let request := mkRequest resolvedInput init
  let record0 : RequestData :=
    { id := requestId, url := request.url, method := request.method,
      headers := request.headers, body := none }
  let pr := runReqMws reqMws record0
  -- const requestClone = request.clone()  (pure copy in this model)
  let n := baseFetch request
  let (resp, st1) := materialize st n
  let st2 :=
    if respMws.length > 0 then
      let (respClone, st') := Response.cloneM st1 resp
      (processResponseMiddlewares respMws st' respClone).1
    else st1
  { record0 := record0, finalRecord := pr.data, invoked := pr.invoked,
    caught := pr.caught, dispatched := request, returned := resp,
    store := st2 }

/-! ## Fetch interception strategy 1: Proxy

Embedding of the `Proxy` `apply` trap (src/script.js:374-443). -/

/-- A request body as the proxy strategy sees it. -/
inductive JsBody where
  | undef
  | str (s : String)
  | formData (entries : List (String × String))
deriving DecidableEq, Repr

/-- JavaScript `a || b` over bodies: `undefined` and `""` are falsy. -/
def jsOrBody (a b : JsBody) : JsBody :=
  match a with
  | .undef => b
  | .str s => if s = "" then b else .str s
  | .formData e => .formData e

/-- The fetch `options` argument (`init`), before normalization. -/
structure FetchOptions where
  method : Option String
  headers : List (String × String)
  body : JsBody
deriving DecidableEq, Repr

/-- The `requestData.options` shape the proxy strategy builds. -/
structure ProxyOptions where
  method : String
  headers : List (String × String)
  body : JsBody
deriving DecidableEq, Repr

/-- The record the proxy strategy hands to request middlewares
(`middlewareRequestData`). -/
structure ProxyRequestData where
  url : String
  options : ProxyOptions
deriving DecidableEq, Repr

/-- Serialization of a `FormData` body by `new Response(formData).text()`
(browser primitive model; the first line is `--` + boundary + CR). -/
def formDataBoundary : String :=
  "----ModelFormBoundary0001"

def formDataSerialize (entries : List (String × String)) : String :=
  String.join (entries.map (fun p =>
    "--" ++ formDataBoundary ++ "\r\nContent-Disposition: form-data; name=\""
      ++ p.1 ++ "\"\r\n\r\n" ++ p.2 ++ "\r\n"))
    ++ "--" ++ formDataBoundary ++ "--\r\n"

/-- Observable outcome of one intercepted call under the proxy strategy. -/
structure ProxyOutcome where
  /-- record handed to middlewares (`none` when the `!url` guard dispatched
  directly) -/
  observed : Option ProxyRequestData
  /-- the record after middleware mutations settled -/
  finalRecord : Option ProxyRequestData
  invoked : List Bool
  caught : Option String
  /-- the url argument of the real dispatch (`requestData.url`) -/
  dispatchedUrl : String
  /-- the options argument of the real dispatch (`requestData.options`) -/
  dispatchedOptions : ProxyOptions
  returned : Response
  store : Store
deriving Repr

/-- Embedding of the proxy `apply` trap (src/script.js:375-442).  Note that
middlewares receive `middlewareRequestData` (fresh object, copied headers,
serialized form-data body) while the real dispatch uses `requestData.url`
and `requestData.options`. -/
def proxyFetchApply (baseFetch : String → ProxyOptions → NetResponse)
    (reqMws : List (MwBehavior ProxyRequestData)) (respMws : List RespMw)
    (url : String) (options : FetchOptions) (st : Store) : ProxyOutcome :=
  let normOptions : ProxyOptions :=
    { method := jsOrStr options.method "GET", headers := options.headers,
      body := options.body }
  if url = "" then
    -- if (!url) return Reflect.apply(target, thisArg, argumentsList)
    let (resp, st1) := materialize st (baseFetch url normOptions)
    { observed := none, finalRecord := none, invoked := [], caught := none,
      dispatchedUrl := url, dispatchedOptions := normOptions,
      returned := resp, store := st1 }
  else
    let requestData : ProxyRequestData := { url := url, options := normOptions }
    let sourceBody0 := requestData.options.body
    let sourceHeaders0 := options.headers
    let (sourceBody, sourceHeaders) :=
      if strToUpper requestData.options.method = "POST" then
        match sourceBody0 with
        | .formData entries =>
            let text := formDataSerialize entries
            let boundary := jsSubstringTo text (jsIndexOfChar text '\n' - 1)
            (JsBody.str text,
             objSet sourceHeaders0 "content-type"
               ("multipart/form-data; boundary=" ++ boundary))
        | _ => (sourceBody0, sourceHeaders0)
      else (sourceBody0, sourceHeaders0)
    let middlewareRequestData : ProxyRequestData :=
      { url := requestData.url
        options := { requestData.options with
                       headers := sourceHeaders
                       body := jsOrBody sourceBody requestData.options.body } }
    let pr := runReqMws reqMws middlewareRequestData
    -- dispatch with requestData.url / requestData.options (NOT the record
    -- the middlewares saw)
    let n := baseFetch requestData.url requestData.options
    let (resp, st1) := materialize st n
    let (respClone, st2) := Response.cloneM st1 resp
    let st3 := (processResponseMiddlewares respMws st2 respClone).1
    { observed := some middlewareRequestData, finalRecord := some pr.data,
      invoked := pr.invoked, caught := pr.caught,
      dispatchedUrl := requestData.url,
      dispatchedOptions := requestData.options,
      returned := resp, store := st3 }

/-! ## Fetch interception strategy 2: direct replacement

Embedding of `interceptedFetch` (src/script.js:447-509); identical in call
behaviour to the getter wrapper except that its `requestData` carries no
`body` key (modelled as `none`, like the getter's `null`). -/

structure DirectOutcome where
  record0 : RequestData
  finalRecord : RequestData
  invoked : List Bool
  caught : Option String
  dispatched : Request
  returned : Response
  store : Store
deriving Repr

def interceptedFetchDirect (locationHref : String)
    (baseFetch : Request → NetResponse)
    (reqMws : List (MwBehavior RequestData)) (respMws : List RespMw)
    (requestId : String) (input : String) (init : RequestInit)
    (st : Store) : DirectOutcome :=
  let resolvedInput :=
    if ¬ canParseUrl input then urlResolve input locationHref else input
  let request := mkRequest resolvedInput init
  let record0 : RequestData :=
    { id := requestId, url := request.url, method := request.method,
      headers := request.headers, body := none }
  let pr := runReqMws reqMws record0
  let n := baseFetch request
  let (resp, st1) := materialize st n
  let st2 :=
    if respMws.length > 0 then
      let (respClone, st') := Response.cloneM st1 resp
      (processResponseMiddlewares respMws st' respClone).1
    else st1
  { record0 := record0, finalRecord := pr.data, invoked := pr.invoked,
    caught := pr.caught, dispatched := request, returned := resp,
    store := st2 }

/-! ## XHR interception strategy

Embedding of the patched `XMLHttpRequest.prototype` methods
(src/script.js:547-689). -/

/-- The value of `this.response` at completion time. -/
inductive XhrResponseVal where
  | nullish
  | str (s : String)
  | blob
  | arrayBuffer
  | document (outerHTML : String)
  | object (stringified : Option String)
  | other (stringed : String)
deriving DecidableEq, Repr

/-- Embedding of `getResponseString` (src/script.js:615-641).  `object`
carries `JSON.stringify`'s result, `none` when stringification throws (the
fallback is `String(response)`). -/
def getResponseString : XhrResponseVal → String
  | .nullish => ""
  | .str s => s
  | .blob => "[Binary Data]"
  | .arrayBuffer => "[Binary Data]"
  | .document h => h
  | .object (some j) => j
  | .object none => "[object Object]"
  | .other s => s

/-- Embedding of the raw-header parsing in the synthetic `Response`
construction (src/script.js:648-655): split on CRLF, drop empty lines,
split each line on `": "` and keep the first two parts. -/
def parseRawHeaders (raw : String) : List (String × String) :=
  ((jsSplitOn raw "\r\n").filter (· ≠ "")).map (fun line =>
    match jsSplitOn line ": " with
    | k :: v :: _ => (k, v)
    | [k] => (k, "")
    | [] => ("", ""))

/-- `new Response(body, { status, statusText, headers })` (browser
primitive model): header names are lowercased and a string body supplies a
default `content-type` when the given headers carry none. -/
def mkSyntheticResponse (st : Store) (bodyStr : String) (status : Nat)
    (statusText : String) (headers : List (String × String)) :
    Response × Store :=
  let hs := headers.map (fun p => (strToLower p.1, p.2))
  let hs' := if hs.any (·.1 == "content-type") then hs
             else hs ++ [("content-type", "text/plain;charset=UTF-8")]
  let (i, st') := st.alloc
  ({ objId := i, streamId := i, url := "", status := status,
     statusText := statusText, headers := hs', bodyText := bodyStr,
     textFails := false }, st')

/-- State of an XHR instance when its readiness handler fires. -/
structure XhrCompletion where
  readyState : Nat
  status : Nat
  statusText : String
  response : XhrResponseVal
  responseHeadersRaw : String
deriving DecidableEq, Repr

/-- Embedding of the `onreadystatechange` override body
(src/script.js:605-679) less the call to the original handler: at
`readyState === 4` a falsy status becomes `500` (`this.status || 500`), a
falsy status text becomes `"Request Failed"`, a synthetic `Response` is built
from the stringified body and parsed headers, and its `url` is defined to be
the accumulated request url.  Returns `none` when `readyState ≠ 4` (no
response processing). -/
def xhrHandleCompletion (st : Store) (x : XhrCompletion)
    (requestUrl : String) : Option (Response × Store) :=
  if x.readyState = 4 then
    let status := if x.status = 0 then 500 else x.status
    let statusText := if x.statusText = "" then "Request Failed"
                      else x.statusText
    let (r, st') := mkSyntheticResponse st (getResponseString x.response)
      status statusText (parseRawHeaders x.responseHeadersRaw)
    some ({ r with url := requestUrl }, st')
  else none

/-- The record handed to response middlewares for a completed XHR call:
`processResponseMiddlewares` parses the synthetic response. -/
def xhrMiddlewareRecord (st : Store) (x : XhrCompletion)
    (requestUrl : String) : Option ResponseRecord :=
  match xhrHandleCompletion st x requestUrl with
  | some (r, st') =>
      match parseResponse st' r with
      | .ok (rec, _) => some rec
      | .error _ => none
  | none => none

/-- Embedding of the patched `XMLHttpRequest.prototype.send` middleware
phase (src/script.js:579-689): the accumulated `requestInfo` gets the body,
request middlewares run with the shared caught-error pattern, and the real
send is dispatched afterwards with `requestInfo.body` — the possibly
mutated body. -/
structure XhrSendOutcome where
  finalInfo : RequestData
  invoked : List Bool
  caught : Option String
  /-- the body `originalSend` is called with -/
  dispatchedBody : Option String
deriving Repr

def xhrSend (reqMws : List (MwBehavior RequestData)) (info : RequestData)
    (data : Option String) : XhrSendOutcome :=
  let info1 := { info with body := data }
  let pr := runReqMws reqMws info1
  { finalInfo := pr.data, invoked := pr.invoked, caught := pr.caught,
    dispatchedBody := pr.data.body }

/-! ## Middleware registry

Embedding of the registration API (src/script.js:893-953). -/

/-- The two `Map`s of the interceptor; middleware functions are opaque
tokens. -/
structure Registry where
  requestMiddlewares : List (String × Nat)
  responseMiddlewares : List (String × Nat)
deriving DecidableEq, Repr

/-- Embedding of `addRequestMiddleware` (src/script.js:893-900).
`middleware` is `some` token when the argument is a function; `gen` models
the generated `req_...` id.  The method body has no `return` statement, so
the call evaluates to `undefined`. -/
def addRequestMiddleware (reg : Registry) (middleware : Option Nat)
    (id : Option String) (gen : String) : Registry × JsValue :=
  match middleware with
  | some f =>
      let finalId := jsOrStr id gen
      ({ reg with
           requestMiddlewares := objSet reg.requestMiddlewares finalId f },
       .undefined)
  | none => (reg, .undefined)

/-- Embedding of `addResponseMiddleware` (src/script.js:907-914); same
shape, `gen` models the generated `resp_...` id. -/
def addResponseMiddleware (reg : Registry) (middleware : Option Nat)
    (id : Option String) (gen : String) : Registry × JsValue :=
  match middleware with
  | some f =>
      let finalId := jsOrStr id gen
      ({ reg with
           responseMiddlewares := objSet reg.responseMiddlewares finalId f },
       .undefined)
  | none => (reg, .undefined)

/-- Embedding of `removeRequestMiddleware` (src/script.js:920-928): returns
`Map.delete`'s boolean. -/
def removeRequestMiddleware (reg : Registry) (id : String) :
    Registry × JsValue :=
  let removed := reg.requestMiddlewares.any (·.1 == id)
  ({ reg with
       requestMiddlewares := reg.requestMiddlewares.filter (·.1 ≠ id) },
   .bool removed)

/-- Embedding of `removeResponseMiddleware` (src/script.js:934-942). -/
def removeResponseMiddleware (reg : Registry) (id : String) :
    Registry × JsValue :=
  let removed := reg.responseMiddlewares.any (·.1 == id)
  ({ reg with
       responseMiddlewares := reg.responseMiddlewares.filter (·.1 ≠ id) },
   .bool removed)

/-! ## Install / uninstall lifecycle

Environment model for `setupInterceptor`, `updateOptions` and `cleanup`
(src/script.js:180-886, 958-974).  Function references are `Nat` tags
allocated from a counter (JavaScript object identity); the heap maps each
tag to the function's behaviour.  The `Window.prototype.fetch` mirror and
the `globalThis` alias of `window` are elided: `globalThis === window`, so
their property definitions land on the same modelled slot. -/

/-- Behaviour of a function reference living in a call-surface slot. -/
inductive FnVal where
  | nativeFetch
  /-- `window.fetch?.bind(window)` — a fresh function delegating to `inner` -/
  | boundFetch (inner : Nat)
  /-- `createInterceptedFetch(base)` — runs the pipeline once, then `base` -/
  | getterWrapper (base : Nat)
  /-- the `Proxy` around `base` — runs the pipeline once, then `base` -/
  | proxyWrapper (base : Nat)
  /-- the direct-replacement `interceptedFetch` over `base` -/
  | directWrapper (base : Nat)
  | nativeOpen
  | nativeSend
  | nativeSetHeader
  | wrappedOpen (base : Nat)
  | wrappedSend (base : Nat)
  | wrappedSetHeader (base : Nat)
  | nativeSubmit
  | wrappedSubmit (base : Nat)
  /-- a `submitHandler` closure (fresh per `setupInterceptor` run) -/
  | submitHandler
deriving DecidableEq, Repr

/-- The `window.fetch` property: either a plain data slot or the accessor
pair installed by the getter strategy, whose mutable `currentFetch` cell
holds `cell`. -/
inductive FetchSlot where
  | data (ref : Nat)
  | accessor (cell : Nat)
deriving DecidableEq, Repr

/-- The mutable browser environment touched by the interceptor. -/
structure Env where
  heap : List (Nat × FnVal)
  nextRef : Nat
  fetchSlot : FetchSlot
  xhrOpen : Nat
  xhrSend : Nat
  xhrSetHeader : Nat
  formSubmit : Nat
  submitListeners : List Nat
  /-- references carrying the `IS_PATCHED_MODULE` marker -/
  patched : List Nat
deriving DecidableEq, Repr

def Env.alloc (e : Env) (v : FnVal) : Nat × Env :=
  (e.nextRef,
   { e with heap := (e.nextRef, v) :: e.heap, nextRef := e.nextRef + 1 })

/-- Reading `window.fetch`: a data slot yields its reference; the accessor's
getter returns `createInterceptedFetch(currentFetch)` — a fresh wrapper on
every read. -/
def Env.readFetch (e : Env) : Nat × Env :=
  match e.fetchSlot with
  | .data r => (r, e)
  | .accessor cell => e.alloc (.getterWrapper cell)

/-- Assignment `window.fetch = r`: plain write to a data slot; with the
accessor installed the setter runs instead and only updates the
`currentFetch` cell (every reference in this model is a function, so the
setter's `typeof` check passes). -/
def Env.assignFetch (e : Env) (r : Nat) : Env :=
  match e.fetchSlot with
  | .data _ => { e with fetchSlot := .data r }
  | .accessor _ => { e with fetchSlot := .accessor r }

def Env.marked (e : Env) (r : Nat) : Bool :=
  e.patched.contains r

/-- Embedding of the constructor options (src/script.js:45-53). -/
structure Options where
  disableFetch : Bool
  disableXHR : Bool
  disableFormIntercept : Bool
  delayFormSubmitForFetch : Bool
  useProxyForFetch : Bool
  useGetterForFetch : Bool
deriving DecidableEq, Repr

/-- A reversal closure pushed onto `this.subscriptions`. -/
inductive Subscription where
  | restoreFetchGetter (originalFetch : Nat)
  | restoreXHR (o s h : Nat)
  | restoreForm (submit : Nat) (listener : Nat)
deriving DecidableEq, Repr

/-- The per-interceptor instance state relevant to the lifecycle. -/
structure Instance where
  /-- `this.originalFetch` — the bound copy captured in the constructor -/
  originalFetch : Nat
  subscriptions : List Subscription
deriving DecidableEq, Repr

/-- XHR part of `setupInterceptor` (src/script.js:536-702): capture the
*current* prototype methods, install wrappers over them, push a reversal
closure. -/
def setupXHR (opts : Options) (inst : Instance) (e : Env) :
    Instance × Env :=
  if opts.disableXHR then (inst, e)
  else
    let o0 := e.xhrOpen
    let s0 := e.xhrSend
    let h0 := e.xhrSetHeader
    let (o, e1) := e.alloc (.wrappedOpen o0)
    let (s, e2) := e1.alloc (.wrappedSend s0)
    let (h, e3) := e2.alloc (.wrappedSetHeader h0)
    ({ inst with subscriptions :=
         inst.subscriptions ++ [.restoreXHR o0 s0 h0] },
     { e3 with xhrOpen := o, xhrSend := s, xhrSetHeader := h })

/-- Form part of `setupInterceptor` (src/script.js:705-873): capture the
current `submit`, add a fresh capturing listener, wrap the prototype
`submit`, push a reversal closure. -/
def setupForm (opts : Options) (inst : Instance) (e : Env) :
    Instance × Env :=
  if opts.disableFormIntercept then (inst, e)
  else
    let sub0 := e.formSubmit
    let (l, e1) := e.alloc .submitHandler
    let e2 := { e1 with submitListeners := e1.submitListeners ++ [l] }
    let (w, e3) := e2.alloc (.wrappedSubmit sub0)
    ({ inst with subscriptions :=
         inst.subscriptions ++ [.restoreForm sub0 l] },
     { e3 with formSubmit := w })

/-- Embedding of `setupInterceptor` (src/script.js:180-874).  Under the
getter strategy the `IS_PATCHED_MODULE` guard checks `this.originalFetch`
and, when it fires, `return`s from the whole method — skipping the XHR and
form setup as well (src/script.js:271-274).  After installing the accessor
the code reads `window.fetch` (obtaining a fresh wrapper) and defines the
marker on that wrapper (src/script.js:297-302). -/
def setupInterceptor (opts : Options) (inst : Instance) (e : Env) :
    Instance × Env :=
  if opts.disableFetch then
    let (i1, e1) := setupXHR opts inst e
    setupForm opts i1 e1
  else if opts.useGetterForFetch then
    if e.marked inst.originalFetch then
      (inst, e)
    else
      -- let currentFetch = originalFetch; defineProperty accessor
      let e1 := { e with fetchSlot := .accessor inst.originalFetch }
      -- Object.defineProperty(window.fetch, IS_PATCHED_MODULE, {value: true})
      let (w, e2) := e1.readFetch
      let e3 := { e2 with patched := w :: e2.patched }
      let inst1 := { inst with subscriptions :=
        inst.subscriptions ++ [.restoreFetchGetter inst.originalFetch] }
      let (i1, e4) := setupXHR opts inst1 e3
      setupForm opts i1 e4
  else if opts.useProxyForFetch then
    -- window.fetch = new Proxy(originalFetch, {...})  (assignment!)
    let (p, e1) := e.alloc (.proxyWrapper inst.originalFetch)
    let e2 := e1.assignFetch p
    let (i1, e3) := setupXHR opts inst e2
    setupForm opts i1 e3
  else
    -- Object.defineProperty(window, "fetch", { value: interceptedFetch, .. })
    let (d, e1) := e.alloc (.directWrapper inst.originalFetch)
    let e2 := { e1 with fetchSlot := .data d }
    let (i1, e3) := setupXHR opts inst e2
    setupForm opts i1 e3

/-- Embedding of the constructor (src/script.js:39-73):
`this.originalFetch = window.fetch?.bind(window)` (a *fresh* bound function
over whatever a read of the slot yields), then `setupInterceptor`. -/
def construct (opts : Options) (e : Env) : Instance × Env :=
  let (r, e1) := e.readFetch
  let (b, e2) := e1.alloc (.boundFetch r)
  setupInterceptor opts { originalFetch := b, subscriptions := [] } e2

/-- Embedding of `updateOptions` (src/script.js:880-886): merge options
(the caller passes the merged result here) and re-run `setupInterceptor` —
no uninstall happens first. -/
def updateOptions (mergedOpts : Options) (inst : Instance) (e : Env) :
    Instance × Env :=
  setupInterceptor mergedOpts inst e

/-- Running one reversal closure.  The getter-strategy closure
(src/script.js:350-367) first re-reads `window.fetch` to clear the marker
(on a fresh wrapper, if the accessor is still installed), then *assigns*
`globalThis.fetch = originalFetch` and `window.fetch = originalFetch`
(both hitting the same slot; with the accessor still installed these run
the setter, which only swaps the cell). -/
def applySubscription (e : Env) (s : Subscription) : Env :=
  match s with
  | .restoreFetchGetter orig =>
      let (w, e1) := e.readFetch
      let e2 := { e1 with patched := e1.patched.filter (· ≠ w) }
      let e3 := e2.assignFetch orig
      e3.assignFetch orig
  | .restoreXHR o s h =>
      { e with xhrOpen := o, xhrSend := s, xhrSetHeader := h }
  | .restoreForm sub l =>
      { e with formSubmit := sub,
               submitListeners := e.submitListeners.erase l }

/-- Embedding of `cleanup` (src/script.js:958-974): run every stored
reversal closure in insertion order, then clear the subscription list. -/
def cleanup (inst : Instance) (e : Env) : Instance × Env :=
  ({ inst with subscriptions := [] },
   inst.subscriptions.foldl applySubscription e)

/-- How many interception pipeline layers a call through reference `r`
passes before reaching a native implementation (fuel-bounded walk of the
wrapper chain; every wrapper was allocated after its base, so
`e.nextRef` fuel always suffices). -/
def refLayers (e : Env) : Nat → Nat → Nat
  | 0, _ => 0
  | fuel + 1, r =>
    match e.heap.lookup r with
    | some .nativeFetch => 0
    | some .nativeOpen => 0
    | some .nativeSend => 0
    | some .nativeSetHeader => 0
    | some .nativeSubmit => 0
    | some .submitHandler => 0
    | some (.boundFetch i) => refLayers e fuel i
    | some (.getterWrapper b) => 1 + refLayers e fuel b
    | some (.proxyWrapper b) => 1 + refLayers e fuel b
    | some (.directWrapper b) => 1 + refLayers e fuel b
    | some (.wrappedOpen b) => 1 + refLayers e fuel b
    | some (.wrappedSend b) => 1 + refLayers e fuel b
    | some (.wrappedSetHeader b) => 1 + refLayers e fuel b
    | some (.wrappedSubmit b) => 1 + refLayers e fuel b
    | none => 0

/-- Pipeline layers a real `fetch(...)` call passes through: the call first
reads the slot (possibly minting a fresh accessor wrapper), then invokes
the obtained function. -/
def fetchCallLayers (e : Env) : Nat :=
  let (r, e1) := e.readFetch
  refLayers e1 e1.nextRef r

/-- Pipeline layers an XHR `open` call passes through. -/
def xhrOpenLayers (e : Env) : Nat :=
  refLayers e e.nextRef e.xhrOpen

/-- Pipeline layers a programmatic form `submit()` passes through. -/
def formSubmitLayers (e : Env) : Nat :=
  refLayers e e.nextRef e.formSubmit

/-- The pristine browser environment: native fetch (`ref 0`), the three
native XHR prototype methods (`1`–`3`) and the native form submit
(`4`). -/
def env0 : Env :=
  { heap := [(0, .nativeFetch), (1, .nativeOpen), (2, .nativeSend),
             (3, .nativeSetHeader), (4, .nativeSubmit)]
    nextRef := 5
    fetchSlot := .data 0
    xhrOpen := 1
    xhrSend := 2
    xhrSetHeader := 3
    formSubmit := 4
    submitListeners := []
    patched := [] }

/-- The options the userscript installs with (src/script.js:978-985). -/
def defaultOptions : Options :=
  { disableFetch := false, disableXHR := false,
    disableFormIntercept := false, delayFormSubmitForFetch := true,
    useProxyForFetch := false, useGetterForFetch := true }

/-! ## Concrete fixtures shared by the theorems -/

/-- The empty store. -/
def store0 : Store := { nextId := 0, consumed := [] }

/-- A fetch `init` with no entries. -/
def init0 : RequestInit := { method := none, headers := [], body := none }

/-- Proxy-strategy `options` with no entries. -/
def fetchOptions0 : FetchOptions :=
  { method := none, headers := [], body := .undef }

/-- A fixed network response for concrete scenarios. -/
def netConst : NetResponse :=
  { url := "https://example.com/api/x", status := 200, statusText := "OK",
    headers := [("content-type", "application/json")],
    bodyText := "payload-ok", textFails := false }

/-! ## Helper lemmas -/

/-- `parseResponse` always succeeds and copies `url`/`status`/`statusText`
from the response. -/
lemma parseResponse_ok (st : Store) (r : Response) :
    ∃ rec st', parseResponse st r = .ok (rec, st')
      ∧ rec.status = r.status ∧ rec.statusText = r.statusText
      ∧ rec.url = r.url := by
  exact ⟨_, _, rfl, rfl, rfl, rfl⟩

/-- The store after `parseResponse`: reading marks the stream consumed
unless the body was already used. -/
lemma parseResponse_consumed (st : Store) (r : Response) :
    ∃ rec, parseResponse st r
      = .ok (rec, if r.bodyUsed st then st
                  else { st with consumed := r.streamId :: st.consumed }) := by
  unfold parseResponse Response.textE
  by_cases h : r.bodyUsed st <;> by_cases h2 : r.textFails <;> simp [h, h2] <;>
    split <;> rfl

/-- The store after `processResponseMiddlewares`: only the provided
(cloned) response's stream is consumed. -/
lemma processRespMws_consumed (mws : List RespMw) (st : Store)
    (r : Response) :
    (processResponseMiddlewares mws st r).1.consumed
      = if r.bodyUsed st then st.consumed
        else r.streamId :: st.consumed := by
  obtain ⟨rec, heq⟩ := parseResponse_consumed st r
  unfold processResponseMiddlewares
  rw [heq]
  by_cases h : r.bodyUsed st <;> simp [h]

/-- In a well-formed store the next allocation is unconsumed. -/
lemma wf_next_unconsumed {st : Store} (hwf : st.WF) {k : Nat}
    (hk : st.nextId ≤ k) : st.consumed.contains k = false := by
  by_contra h
  have hc : st.consumed.contains k = true := by
    cases hc : st.consumed.contains k
    · exact absurd hc h
    · rfl
  have hmem : k ∈ st.consumed := by
    simpa [List.contains] using List.mem_of_elem_eq_true hc
  exact absurd (hwf k hmem) (by omega)

/-- After a getter-strategy call the caller's response stream is untouched:
only the clone handed to the response pipeline was consumed. -/
lemma getter_returned_unconsumed (loc : String)
    (baseFetch : Request → NetResponse)
    (reqMws : List (MwBehavior RequestData)) (respMws : List RespMw)
    (rid input : String) (init : RequestInit) (st : Store) (hwf : st.WF) :
    ((interceptedFetchGetter loc baseFetch reqMws respMws rid input init
        st).returned.bodyUsed
      (interceptedFetchGetter loc baseFetch reqMws respMws rid input init
        st).store) = false := by
  have h0 : st.nextId ∉ st.consumed := fun hm => absurd (hwf _ hm) (by omega)
  have h1 : st.nextId + 1 ∉ st.consumed := fun hm => absurd (hwf _ hm) (by omega)
  unfold interceptedFetchGetter materialize Store.alloc Response.cloneM
  by_cases h : respMws.length > 0 <;>
    simp [h, Response.bodyUsed, processRespMws_consumed, Store.alloc, h0, h1,
      Nat.self_eq_add_right]

/-- Same fact for the direct-replacement strategy. -/
lemma direct_returned_unconsumed (loc : String)
    (baseFetch : Request → NetResponse)
    (reqMws : List (MwBehavior RequestData)) (respMws : List RespMw)
    (rid input : String) (init : RequestInit) (st : Store) (hwf : st.WF) :
    ((interceptedFetchDirect loc baseFetch reqMws respMws rid input init
        st).returned.bodyUsed
      (interceptedFetchDirect loc baseFetch reqMws respMws rid input init
        st).store) = false := by
  have h0 : st.nextId ∉ st.consumed := fun hm => absurd (hwf _ hm) (by omega)
  have h1 : st.nextId + 1 ∉ st.consumed := fun hm => absurd (hwf _ hm) (by omega)
  unfold interceptedFetchDirect materialize Store.alloc Response.cloneM
  by_cases h : respMws.length > 0 <;>
    simp [h, Response.bodyUsed, processRespMws_consumed, Store.alloc, h0, h1,
      Nat.self_eq_add_right]

/-- Same fact for the proxy strategy (which clones unconditionally). -/
lemma proxy_returned_unconsumed (baseFetchP : String → ProxyOptions → NetResponse)
    (reqMwsP : List (MwBehavior ProxyRequestData)) (respMws : List RespMw)
    (url : String) (options : FetchOptions) (st : Store) (hwf : st.WF) :
    ((proxyFetchApply baseFetchP reqMwsP respMws url options st).returned.bodyUsed
      (proxyFetchApply baseFetchP reqMwsP respMws url options st).store) = false := by
  have h0 : st.nextId ∉ st.consumed := fun hm => absurd (hwf _ hm) (by omega)
  have h1 : st.nextId + 1 ∉ st.consumed := fun hm => absurd (hwf _ hm) (by omega)
  unfold proxyFetchApply materialize Store.alloc Response.cloneM
  by_cases h : url = "" <;>
    simp [h, Response.bodyUsed, processRespMws_consumed, Store.alloc, h0, h1,
      Nat.self_eq_add_right]

/-! ## Claim C1 -/

/-- C1 counterexample: under the getter/setter fetch strategy a request
middleware mutates the record's `url` before settling, yet the real
underlying fetch is dispatched with the original url — the dispatch uses
the `Request` snapshot built before the middlewares ran, so the mutation is
not reflected in the dispatched arguments. -/
theorem C1_counterexample :
    let run := interceptedFetchGetter "https://example.com/app/"
      (fun _ => netConst)
      [MwBehavior.resolve (fun d => { d with url := "https://changed.example/x" })]
      [] "req_1" "https://example.com/api/x" init0 store0
    run.finalRecord.url = "https://changed.example/x"
      ∧ run.dispatched.url = "https://example.com/api/x"
      ∧ run.dispatched.url ≠ run.finalRecord.url := by
  exact ⟨rfl, rfl, by decide⟩

/-- C1 (amended): under every one of the three fetch strategies the real
underlying dispatch uses the url/method/headers/body captured when the
canonical record was built, before request middlewares ran — the dispatched
arguments are identical to those of a run with no middlewares at all, so
middleware mutations of the record are never reflected in the dispatch. -/
theorem C1_amended_dispatch_is_presnapshot (loc : String)
    (baseFetch : Request → NetResponse)
    (baseFetchP : String → ProxyOptions → NetResponse)
    (reqMws : List (MwBehavior RequestData))
    (reqMwsP : List (MwBehavior ProxyRequestData))
    (respMws : List RespMw) (rid input : String) (init : RequestInit)
    (url : String) (options : FetchOptions) (st : Store) :
    (interceptedFetchGetter loc baseFetch reqMws respMws rid input init
        st).dispatched
      = (interceptedFetchGetter loc baseFetch [] [] rid input init
        st).dispatched
    ∧ (interceptedFetchDirect loc baseFetch reqMws respMws rid input init
        st).dispatched
      = (interceptedFetchDirect loc baseFetch [] [] rid input init
        st).dispatched
    ∧ (proxyFetchApply baseFetchP reqMwsP respMws url options st).dispatchedUrl
      = (proxyFetchApply baseFetchP [] [] url options st).dispatchedUrl
    ∧ (proxyFetchApply baseFetchP reqMwsP respMws url options
        st).dispatchedOptions
      = (proxyFetchApply baseFetchP [] [] url options st).dispatchedOptions := by
  refine ⟨rfl, rfl, ?_, ?_⟩ <;>
    · unfold proxyFetchApply
      by_cases h : url = "" <;> simp [h]

/-! ## Claim C2 -/

/-- C2: under all three fetch strategies the `Response` returned to the
original caller is the very object produced by the real underlying fetch,
identical whether zero or many request/response middlewares are registered
(including middlewares that throw or reject), and its body stream is left
unconsumed — the response-phase pipeline only ever reads the clone. -/
theorem C2_caller_response_unaffected (loc : String)
    (baseFetch : Request → NetResponse)
    (baseFetchP : String → ProxyOptions → NetResponse)
    (reqMws : List (MwBehavior RequestData))
    (reqMwsP : List (MwBehavior ProxyRequestData))
    (respMws : List RespMw) (rid input : String) (init : RequestInit)
    (url : String) (options : FetchOptions) (st : Store) (hwf : st.WF) :
    ((interceptedFetchGetter loc baseFetch reqMws respMws rid input init
        st).returned
      = (interceptedFetchGetter loc baseFetch [] [] rid input init
        st).returned
    ∧ ((interceptedFetchGetter loc baseFetch reqMws respMws rid input init
        st).returned.bodyUsed
       (interceptedFetchGetter loc baseFetch reqMws respMws rid input init
        st).store) = false)
    ∧ ((interceptedFetchDirect loc baseFetch reqMws respMws rid input init
        st).returned
      = (interceptedFetchDirect loc baseFetch [] [] rid input init
        st).returned
    ∧ ((interceptedFetchDirect loc baseFetch reqMws respMws rid input init
        st).returned.bodyUsed
       (interceptedFetchDirect loc baseFetch reqMws respMws rid input init
        st).store) = false)
    ∧ ((proxyFetchApply baseFetchP reqMwsP respMws url options st).returned
      = (proxyFetchApply baseFetchP [] [] url options st).returned
    ∧ ((proxyFetchApply baseFetchP reqMwsP respMws url options
        st).returned.bodyUsed
       (proxyFetchApply baseFetchP reqMwsP respMws url options
        st).store) = false) := by
  refine ⟨⟨rfl, getter_returned_unconsumed _ _ _ _ _ _ _ _ hwf⟩,
          ⟨rfl, direct_returned_unconsumed _ _ _ _ _ _ _ _ hwf⟩,
          ⟨?_, proxy_returned_unconsumed _ _ _ _ _ _ hwf⟩⟩
  unfold proxyFetchApply
  by_cases h : url = "" <;> simp [h]

/-- C2 witness: the theorem applied at a concrete call with a throwing
request middleware and a rejecting response middleware. -/
theorem C2_witness :
    ((interceptedFetchGetter "https://example.com/app/" (fun _ => netConst)
        [MwBehavior.syncThrow "boom"] [fun _ => Except.error "reject"]
        "req_1" "/api/x" init0 store0).returned
      = (interceptedFetchGetter "https://example.com/app/" (fun _ => netConst)
        [] [] "req_1" "/api/x" init0 store0).returned) := by
  exact (C2_caller_response_unaffected "https://example.com/app/"
    (fun _ => netConst) (fun _ _ => netConst)
    [MwBehavior.syncThrow "boom"] [] [fun _ => Except.error "reject"]
    "req_1" "/api/x" init0 "" fetchOptions0 store0 (by decide)).1.1

/-! ## Claim C6 -/

/-- C6 counterexample: a request middleware that throws synchronously
aborts the `Array.map` building the `Promise.all` argument, so the second
registered middleware is never invoked (`invoked = [true, false]`) — even
though the real call is still dispatched and the error does not reach the
caller. -/
theorem C6_counterexample :
    let run := interceptedFetchGetter "https://example.com/app/"
      (fun _ => netConst)
      [MwBehavior.syncThrow "boom",
       MwBehavior.resolve (fun d => { d with method := "PUT" })]
      [] "req_1" "/api/x" init0 store0
    run.invoked = [true, false]
      ∧ run.caught = some "boom"
      ∧ run.dispatched.url = "https://example.com/api/x"
      ∧ run.returned = (materialize store0 netConst).1 := by
  exact ⟨rfl, rfl, rfl, rfl⟩

/-- C6 (amended): when every registered request middleware settles
asynchronously (resolves or rejects — no synchronous throw), all of them
are invoked; and in every case — synchronous throws included — the error is
swallowed by the surrounding catch, the real call is dispatched with the
pre-middleware snapshot, and the caller receives the real response
(for XHR, the real send is dispatched with the accumulated body). -/
theorem C6_amended_error_isolation {α : Type} (mws : List (MwBehavior α))
    (d : α) (loc : String) (baseFetch : Request → NetResponse)
    (reqMws : List (MwBehavior RequestData)) (respMws : List RespMw)
    (rid input : String) (init : RequestInit) (st : Store)
    (info : RequestData) (bodyData : Option String)
    (hnosync : mws.all (fun mw => ! mw.isSyncThrow) = true) :
    (runReqMws mws d).invoked = mws.map (fun _ => true)
    ∧ (interceptedFetchGetter loc baseFetch reqMws respMws rid input init
        st).dispatched
      = mkRequest (if ¬ canParseUrl input then urlResolve input loc
                   else input) init
    ∧ (interceptedFetchGetter loc baseFetch reqMws respMws rid input init
        st).returned
      = (materialize st (baseFetch
          (mkRequest (if ¬ canParseUrl input then urlResolve input loc
                      else input) init))).1
    ∧ (xhrSend reqMws info bodyData).dispatchedBody
      = (runReqMws reqMws { info with body := bodyData }).data.body := by
  refine ⟨?_, rfl, rfl, rfl⟩
  induction mws generalizing d with
  | nil => rfl
  | cons mw rest ih =>
      simp only [List.all_cons, Bool.and_eq_true] at hnosync
      cases mw with
      | syncThrow m =>
          simp [MwBehavior.isSyncThrow] at hnosync
      | reject f m =>
          simp only [runReqMws, List.map]
          exact congrArg (true :: ·) (ih (f d) hnosync.2)
      | resolve f =>
          simp only [runReqMws, List.map]
          exact congrArg (true :: ·) (ih (f d) hnosync.2)

/-- C6 witness: the amended theorem applied to two rejecting middlewares —
both are invoked, and dispatch still uses the snapshot. -/
theorem C6_witness :
    (runReqMws
      [MwBehavior.reject (fun (d : RequestData) => d) "e1",
       MwBehavior.reject (fun d => { d with method := "PUT" }) "e2"]
      { id := "req_1", url := "https://example.com/a", method := "GET",
        headers := [], body := none }).invoked = [true, true] := by
  have h := C6_amended_error_isolation
    [MwBehavior.reject (fun (d : RequestData) => d) "e1",
     MwBehavior.reject (fun d => { d with method := "PUT" }) "e2"]
    { id := "req_1", url := "https://example.com/a", method := "GET",
      headers := [], body := none }
    "https://example.com/app/" (fun _ => netConst) [] [] "req_1" "/api/x"
    init0 store0
    { id := "x", url := "https://example.com/a", method := "GET",
      headers := [], body := none } none rfl
  exact h.1

/-! ## Claim C7 -/

/-- The `body` field of a parse result, when it succeeded. -/
def recBody : Except String (ResponseRecord × Store) → Option String
  | .ok (rec, _) => some rec.body
  | .error _ => none

/-- A concrete already-consumed response (its stream id is consumed). -/
def usedResp : Response :=
  { objId := 0, streamId := 0, url := "https://example.com/a", status := 200,
    statusText := "OK", headers := [("content-type", "text/html")],
    bodyText := "hi", textFails := false }

/-- C7: `parseResponse` never throws (every input yields `.ok`); on a
response whose body stream is already consumed the record's body is the
placeholder `"[Response body already consumed]"`; and the response-phase
processing consumes only the clone it is handed — the original response's
`bodyUsed` is unchanged. -/
theorem C7_parseResponse_never_throws (st : Store) (r : Response)
    (mws : List RespMw) (st3 : Store) (resp : Response) :
    (parseResponse st r).isOk = true
    ∧ (r.bodyUsed st = true →
        recBody (parseResponse st r)
          = some "[Response body already consumed]")
    ∧ (resp.streamId < st3.nextId →
        resp.bodyUsed
          ((processResponseMiddlewares mws (Response.cloneM st3 resp).2
            (Response.cloneM st3 resp).1).1) = resp.bodyUsed st3) := by
  refine ⟨?_, ?_, ?_⟩
  · obtain ⟨rec, heq⟩ := parseResponse_consumed st r
    rw [heq]; rfl
  · intro h
    unfold parseResponse
    simp [h, recBody]
  · intro hr
    have hne : (resp.streamId == st3.nextId) = false := by
      simp only [beq_eq_false_iff_ne, ne_eq]
      omega
    simp only [Response.cloneM, Store.alloc, Response.bodyUsed]
    rw [processRespMws_consumed]
    split
    · rfl
    · simp only [List.contains_cons, hne, Response.bodyUsed,
        Bool.false_or]

/-- C7 witness: the theorem applied to a concrete consumed response. -/
theorem C7_witness :
    (parseResponse { nextId := 1, consumed := [0] } usedResp).isOk = true
    ∧ recBody (parseResponse { nextId := 1, consumed := [0] } usedResp)
        = some "[Response body already consumed]"
    ∧ usedResp.bodyUsed
        ((processResponseMiddlewares []
          (Response.cloneM { nextId := 1, consumed := [0] } usedResp).2
          (Response.cloneM { nextId := 1, consumed := [0] } usedResp).1).1)
      = usedResp.bodyUsed { nextId := 1, consumed := [0] } := by
  have h := C7_parseResponse_never_throws { nextId := 1, consumed := [0] }
    usedResp [] { nextId := 1, consumed := [0] } usedResp
  exact ⟨h.1, h.2.1 (by decide), h.2.2 (by decide)⟩

/-! ## Claim C8 -/

/-- C8 counterexample: under the proxy fetch strategy (an active strategy
choice) the record observed by request middlewares carries the *raw*
relative input `"/api/x"`, not the resolution against the document base
`https://example.com/app/` — the proxy trap performs no URL resolution. -/
theorem C8_counterexample :
    let run := proxyFetchApply (fun _ _ => netConst) [] [] "/api/x"
      fetchOptions0 store0
    run.observed.map (·.url) = some "/api/x"
      ∧ urlResolve "/api/x" "https://example.com/app/"
          = "https://example.com/api/x"
      ∧ "/api/x" ≠ "https://example.com/api/x" := by
  exact ⟨rfl, by decide, by decide⟩

/-- C8 (amended): under the getter/setter and direct-replacement fetch
strategies a relative string URL is resolved against the document location
before any middleware observes it (e.g. `"/api/x"` on
`https://example.com/app/` yields `https://example.com/api/x`); the proxy
strategy passes the raw input through instead. -/
theorem C8_amended_url_resolution (loc : String)
    (baseFetch : Request → NetResponse)
    (reqMws : List (MwBehavior RequestData)) (respMws : List RespMw)
    (rid input : String) (init : RequestInit) (st : Store)
    (hrel : canParseUrl input = false) :
    (interceptedFetchGetter loc baseFetch reqMws respMws rid input init
        st).record0.url = urlResolve input loc
    ∧ (interceptedFetchDirect loc baseFetch reqMws respMws rid input init
        st).record0.url = urlResolve input loc
    ∧ urlResolve "/api/x" "https://example.com/app/"
        = "https://example.com/api/x" := by
  refine ⟨?_, ?_, by decide⟩ <;>
    simp [interceptedFetchGetter, interceptedFetchDirect, mkRequest, hrel]

/-- C8 witness: the amended theorem applied to the spec's example. -/
theorem C8_witness :
    (interceptedFetchGetter "https://example.com/app/" (fun _ => netConst)
      [] [] "req_1" "/api/x" init0 store0).record0.url
      = "https://example.com/api/x" := by
  have h := C8_amended_url_resolution "https://example.com/app/"
    (fun _ => netConst) [] [] "req_1" "/api/x" init0 store0 (by decide)
  exact h.1.trans (by decide)

/-! ## Claim C3 -/

/-- C3 counterexample: with the userscript's own configuration (getter
strategy) install-then-cleanup does *not* restore the pre-install reference
in the global fetch slot: before install a read yields the native fetch
(reference `0`), after cleanup the accessor pair is still installed and a
read mints a fresh wrapper (reference `13`) — which still runs one pipeline
layer. -/
theorem C3_counterexample :
    let installed := construct defaultOptions env0
    let after := (cleanup installed.1 installed.2).2
    (Env.readFetch env0).1 = 0
      ∧ after.fetchSlot = FetchSlot.accessor installed.1.originalFetch
      ∧ (Env.readFetch after).1 = 13
      ∧ (Env.readFetch after).1 ≠ (Env.readFetch env0).1
      ∧ fetchCallLayers after = 1 := by
  exact ⟨rfl, rfl, rfl, by decide, rfl⟩

/-- C3 (amended): for every configuration, install-then-cleanup restores
the exact pre-install references for the three XHR prototype methods and
for the form submit implementation and listener set; the global fetch slot
however is *not* restored whenever fetch interception was enabled — under
the getter strategy the accessor remains and reads yield a fresh wrapper,
and under the proxy and direct strategies no fetch reversal closure is
registered at all, so a read yields the wrapper, not the pre-install
reference. -/
theorem C3_amended_cleanup_partial_restore
    (dF dX dFo dD uP uG : Bool) :
    let opts : Options :=
      { disableFetch := dF, disableXHR := dX, disableFormIntercept := dFo,
        delayFormSubmitForFetch := dD, useProxyForFetch := uP,
        useGetterForFetch := uG }
    let installed := construct opts env0
    let after := (cleanup installed.1 installed.2).2
    after.xhrOpen = env0.xhrOpen
      ∧ after.xhrSend = env0.xhrSend
      ∧ after.xhrSetHeader = env0.xhrSetHeader
      ∧ after.formSubmit = env0.formSubmit
      ∧ after.submitListeners = env0.submitListeners
      ∧ (dF = false →
          (Env.readFetch after).1 ≠ (Env.readFetch env0).1) := by
  cases dF <;> cases dX <;> cases dFo <;> cases dD <;> cases uP <;>
    cases uG <;> decide

/-- C3 witness: the amended theorem at the userscript's configuration. -/
theorem C3_witness :
    ((cleanup (construct defaultOptions env0).1
        (construct defaultOptions env0).2).2.xhrOpen = env0.xhrOpen)
    ∧ (Env.readFetch (cleanup (construct defaultOptions env0).1
        (construct defaultOptions env0).2).2).1
      ≠ (Env.readFetch env0).1 := by
  have h := C3_amended_cleanup_partial_restore false false false true
    false true
  exact ⟨h.1, h.2.2.2.2.2 rfl⟩

/-! ## Claim C4 -/

/-- C4 counterexample: after a first getter-strategy installation the
`IS_PATCHED_MODULE` guard does *not* detect the already-wrapped
implementation — the marker was defined on the throwaway wrapper minted by
the marking read (reference `6`), while `this.originalFetch` (reference
`5`) and any fresh read of the slot (reference `12`) carry no marker — so a
second installation is not skipped: it runs in full and pushes three more
reversal closures. -/
theorem C4_counterexample :
    let first := construct defaultOptions env0
    let second := setupInterceptor defaultOptions first.1 first.2
    Env.marked first.2 first.1.originalFetch = false
      ∧ Env.marked first.2 (Env.readFetch first.2).1 = false
      ∧ first.2.patched = [6]
      ∧ (Env.readFetch first.2).1 = 12
      ∧ first.1.subscriptions.length = 3
      ∧ second.1.subscriptions.length = 6 := by
  exact ⟨rfl, rfl, rfl, rfl, rfl, rfl⟩

/-- C4 (amended): installing the getter/setter fetch strategy twice in
succession does leave a state where a single real fetch call passes
through exactly one pipeline layer — but not because the guard skipped the
second installation (it did not fire); the second installation replaced the
accessor with a fresh one closing over the constructor-captured original
fetch, so no wrapper wraps another wrapper. -/
theorem C4_amended_double_install_single_pipeline :
    let first : Instance × Env := construct defaultOptions env0
    let second : Instance × Env :=
      setupInterceptor defaultOptions first.1 first.2
    fetchCallLayers first.2 = 1
      ∧ fetchCallLayers second.2 = 1
      ∧ second.2.fetchSlot = FetchSlot.accessor first.1.originalFetch := by
  exact ⟨rfl, rfl, rfl⟩

/-! ## Claim C5 -/

/-- The userscript options with the fetch strategy switched from the getter
strategy to the proxy strategy (the merged result of
`updateOptions({useProxyForFetch: true, useGetterForFetch: false})`). -/
def optsProxyMerged : Options :=
  { defaultOptions with
      useProxyForFetch := true
      useGetterForFetch := false }

/-- C5 counterexample: install with the getter strategy, then switch to the
proxy strategy via `updateOptions`.  Nothing is uninstalled first: a single
XHR call now passes through two interception layers, a form submission is
replayed by two stacked handlers, and even the fetch surface runs two
pipeline layers (the assignment `window.fetch = new Proxy(...)` is captured
by the still-installed accessor's setter, so the getter wrapper wraps the
proxy wrapper). -/
theorem C5_counterexample :
    let first := construct defaultOptions env0
    let second := updateOptions optsProxyMerged first.1 first.2
    xhrOpenLayers first.2 = 1
      ∧ xhrOpenLayers second.2 = 2
      ∧ fetchCallLayers second.2 = 2
      ∧ formSubmitLayers second.2 = 2
      ∧ second.2.submitListeners.length = 2 := by
  exact ⟨rfl, rfl, rfl, rfl, rfl⟩

/-- C5 (amended): `updateOptions` merges the options and re-runs
`setupInterceptor` without uninstalling the previous strategy first.  For
every merged configuration with XHR interception enabled the XHR prototype
methods end up wrapped twice (two interception layers per call), and with
form interception enabled the form surface likewise stacks a second layer
and a second capturing listener. -/
theorem C5_amended_update_options_stacks (dF dFo dD uP uG : Bool) :
    let opts2 : Options :=
      { disableFetch := dF, disableXHR := false,
        disableFormIntercept := dFo, delayFormSubmitForFetch := dD,
        useProxyForFetch := uP, useGetterForFetch := uG }
    let first := construct defaultOptions env0
    let second := updateOptions opts2 first.1 first.2
    xhrOpenLayers second.2 = 2
      ∧ (dFo = false →
          formSubmitLayers second.2 = 2
            ∧ second.2.submitListeners.length = 2) := by
  cases dF <;> cases dFo <;> cases dD <;> cases uP <;> cases uG <;> decide

/-- C5 witness: the amended theorem at the getter-to-proxy switch. -/
theorem C5_witness :
    xhrOpenLayers (updateOptions optsProxyMerged
      (construct defaultOptions env0).1
      (construct defaultOptions env0).2).2 = 2
    ∧ formSubmitLayers (updateOptions optsProxyMerged
      (construct defaultOptions env0).1
      (construct defaultOptions env0).2).2 = 2 := by
  have h := C5_amended_update_options_stacks false false true true false
  exact ⟨h.1, (h.2 rfl).1⟩

/-! ## Claim C9 -/

/-- C9 (refuting the claimed contract, confirming the stored id): the
registration methods store the middleware under the caller-supplied id
(or the generated one when none is given), but their bodies have no
`return` statement, so both calls evaluate to `undefined` — the
registration id is *not* returned, and the value a caller captures cannot
later be passed to the removal methods. -/
theorem C9_registration_returns_undefined :
    let reg0 : Registry :=
      { requestMiddlewares := [], responseMiddlewares := [] }
    (addRequestMiddleware reg0 (some 7) (some "my-id") "req_gen").2
        = JsValue.undefined
    ∧ (addRequestMiddleware reg0 (some 7) (some "my-id") "req_gen").2
        ≠ JsValue.str "my-id"
    ∧ (addRequestMiddleware reg0 (some 7) (some "my-id")
        "req_gen").1.requestMiddlewares = [("my-id", 7)]
    ∧ (addResponseMiddleware reg0 (some 8) none "resp_gen").2
        = JsValue.undefined
    ∧ (addResponseMiddleware reg0 (some 8) none "resp_gen").2
        ≠ JsValue.str "resp_gen"
    ∧ (addResponseMiddleware reg0 (some 8) none
        "resp_gen").1.responseMiddlewares = [("resp_gen", 8)]
    ∧ (removeRequestMiddleware (addRequestMiddleware reg0 (some 7)
        (some "my-id") "req_gen").1 "my-id").2 = JsValue.bool true := by
  exact ⟨rfl, by decide, rfl, rfl, by decide, rfl, rfl⟩

/-! ## Claim C10 -/

/-- C10: for every XHR completion at `readyState` 4 with status `0`, the
record handed to response middlewares carries status `500`, carries
`"Request Failed"` when the real status text is empty, and carries the
accumulated request url — the real zero status never reaches a
middleware. -/
theorem C10_xhr_zero_status_masked (st : Store) (x : XhrCompletion)
    (url : String) (h4 : x.readyState = 4) (h0 : x.status = 0) :
    ∃ rec, xhrMiddlewareRecord st x url = some rec
      ∧ rec.status = 500
      ∧ (x.statusText = "" → rec.statusText = "Request Failed")
      ∧ rec.url = url := by
  have hx : ∃ resp st2, xhrHandleCompletion st x url = some (resp, st2)
      ∧ resp.status = 500
      ∧ (x.statusText = "" → resp.statusText = "Request Failed")
      ∧ resp.url = url := by
    unfold xhrHandleCompletion mkSyntheticResponse Store.alloc
    by_cases hst : x.statusText = "" <;> simp [h4, h0, hst]
  obtain ⟨resp, st2, heq, hs, hstx, hu⟩ := hx
  unfold xhrMiddlewareRecord
  rw [heq]
  obtain ⟨rec, st3, hp, hps, hpst, hpu⟩ := parseResponse_ok st2 resp
  refine ⟨rec, ?_, by rw [hps, hs], fun h => by rw [hpst, hstx h],
          by rw [hpu, hu]⟩
  simp [hp]

/-- A concrete failed XHR completion (network failure: status 0). -/
def xhrFail : XhrCompletion :=
  { readyState := 4, status := 0, statusText := "",
    response := .nullish, responseHeadersRaw := "" }

/-- C10 witness: the theorem applied to a concrete failed completion. -/
theorem C10_witness :
    ∃ rec, xhrMiddlewareRecord store0 xhrFail "https://example.com/api"
        = some rec
      ∧ rec.status = 500 ∧ rec.statusText = "Request Failed" := by
  obtain ⟨rec, h1, h2, h3, _⟩ := C10_xhr_zero_status_masked store0 xhrFail
    "https://example.com/api" rfl rfl
  exact ⟨rec, h1, h2, h3 rfl⟩

end Hawkeye
